import Mathlib

/- Verification of the isaacutils repository: a shallow embedding of
   src/isaacutils/posts.py (nested-path attribute extractor) and
   src/isaacutils/mail.py (batching email alert handler), together with
   theorems settling the specification claims. -/

set_option linter.unusedVariables false

/- ================================================================
   Part 1: embedding of src/isaacutils/posts.py
   ================================================================ -/

/-- A Python value as it appears in a Twitter/X post object: a nested
dictionary, a string, or an integer.  Dictionaries are association lists
(insertion order, unique keys). -/
inductive PVal where
  | vStr : String → PVal
  | vInt : Int → PVal
  | vObj : List (String × PVal) → PVal

/-- Python `d[k]` / `d.get(k)` on an association-list dictionary: the value
at the first matching key, if present. -/
def lookup {α : Type} (es : List (String × α)) (k : String) : Option α :=
  (es.find? (fun p => p.1 == k)).map (fun p => p.2)

/-- The loop condition `post_obj.get("__typename") == "TweetWithVisibilityResults"`
of posts.py line 31.  Comparing a non-string (or a missing key, i.e. Python
None) against the string literal is False in Python. -/
def isTWVR : Option PVal → Bool
  | some (.vStr s) => s == "TweetWithVisibilityResults"
  | _ => false

/-- The Python exceptions get_post_attr can raise: `AttributeError` from
calling `.get` on a non-dictionary, and `AssertionError` from the
conflicting-values assert on line 49. -/
inductive PyErr where
  | attributeError
  | assertionError
deriving DecidableEq

/-- posts.py lines 30-32: `while post_obj.get("__typename") == "TweetWithVisibilityResults":
post_obj = post_obj.get("tweet", {})`.  Calling `.get` on a non-dictionary
raises AttributeError.  A missing "tweet" key yields the default `{}`,
after which the loop exits on the next test. -/
def unwrap (v : PVal) : Except PyErr PVal :=
  match v with
  | .vObj es =>
    if h : isTWVR (lookup es "__typename") then
      unwrap ((lookup es "tweet").getD (.vObj []))
    else .ok (.vObj es)
  | .vStr _ => .error .attributeError
  | .vInt _ => .error .attributeError
termination_by sizeOf v
decreasing_by
  have key : ∀ (l : List (String × PVal)) (k : String) (w : PVal),
      lookup l k = some w → sizeOf w < 1 + sizeOf l := by
    intro l k w hw
    induction l with
    | nil => simp [lookup] at hw
    | cons p rest ih =>
      obtain ⟨s, v⟩ := p
      simp only [lookup, List.find?] at hw ih
      cases hk : (s == k) with
      | true =>
        rw [hk] at hw
        simp at hw
        subst hw
        simp [Prod.mk.sizeOf_spec]
        omega
      | false =>
        rw [hk] at hw
        have := ih hw
        simp [Prod.mk.sizeOf_spec]
        omega
  rcases heq : lookup es "tweet" with _ | w
  · cases es with
    | nil => simp [lookup, isTWVR] at h
    | cons p rest =>
      obtain ⟨s, v⟩ := p
      simp [heq, Prod.mk.sizeOf_spec]
      omega
  · have := key es "tweet" w heq
    simp only [heq, Option.getD]
    simp
    omega

/-- Python `str.split(".")` (posts.py line 39): split on every dot, keeping
empty chunks.  `acc` holds the current chunk in reverse. -/
def splitDot : List Char → List Char → List String
  | acc, [] => [String.mk acc.reverse]
  | acc, c :: rest =>
    if c = '.' then String.mk acc.reverse :: splitDot [] rest
    else splitDot (c :: acc) rest

/-- `_path.split(".")` on a Lean string. -/
def pySplitDot (s : String) : List String := splitDot [] s.data

/-- posts.py lines 40-42: `_cursor = post_obj; for _part in _path: _cursor =
_cursor.get(_part, {})`.  Each step calls `.get` on the cursor, so a
non-dictionary cursor with parts remaining raises AttributeError; a missing
key defaults to the empty dictionary. -/
def walkPath : PVal → List String → Except PyErr PVal
  | v, [] => .ok v
  | .vObj es, p :: rest => walkPath ((lookup es p).getD (.vObj [])) rest
  | .vStr _, _ :: _ => .error .attributeError
  | .vInt _, _ :: _ => .error .attributeError

/-- Python equality (`set` membership) on the collected values.  Only
non-dictionary values are ever collected (posts.py line 43 filters out
dicts), so dictionary equality is unreachable and modelled as False. -/
def PVal.beq : PVal → PVal → Bool
  | .vStr a, .vStr b => a == b
  | .vInt a, .vInt b => a == b
  | _, _ => false

/-- posts.py lines 37-44: walk every candidate path and collect the final
cursor whenever it is not a dictionary (`type(_cursor) is not dict`).  An
AttributeError raised while walking a path aborts the whole call. -/
def collectValues (post : PVal) : List String → Except PyErr (List PVal)
  | [] => .ok []
  | p :: rest => do
    let c ← walkPath post (pySplitDot p)
    let vs ← collectValues post rest
    match c with
    | .vObj _ => pure vs
    | _ => pure (c :: vs)

/-- posts.py `get_post_attr(post_obj, attr, post_attr_paths)`.  The result
pairs the Python outcome (raised exception, or returned value where Python
None is `none`) with a flag recording whether `logging.warning` was called
(the unknown-attribute warning on line 34).  The assert on line 49,
`assert len(set(_values)) == 1`, is modelled as: all collected values equal
the first (values are known non-empty at that point). -/
def get_post_attr (post : PVal) (attr : String)
    (post_attr_paths : List (String × List String)) :
    Except PyErr (Option PVal) × Bool :=
  if attr = "__typename" then
    match post with
    | .vObj es => (.ok (lookup es "__typename"), false)
    | _ => (.error .attributeError, false)
  else
    match unwrap post with
    | .error e => (.error e, false)
    | .ok post1 =>
      match lookup post_attr_paths attr with
      | none => (.ok none, true)
      | some cand =>
        match collectValues post1 cand with
        | .error e => (.error e, false)
        | .ok values =>
          match values with
          | [] => (.ok none, false)
          | v :: rest =>
            if rest.all (fun w => PVal.beq w v) then (.ok (some v), false)
            else (.error .assertionError, false)

/-- The "text" path table from the spec:
`{"text": ["note_tweet.note_tweet_results.result.text", "legacy.full_text"]}`. -/
def textPaths : List (String × List String) :=
  [("text", ["note_tweet.note_tweet_results.result.text", "legacy.full_text"])]

/-- A post where only `legacy.full_text = "hello"` is present. -/
def helloPost : PVal := .vObj [("legacy", .vObj [("full_text", .vStr "hello")])]

/-- The tweet wrapped inside wrapPost: `legacy.full_text = "hi"`. -/
def innerPost : PVal := .vObj [("legacy", .vObj [("full_text", .vStr "hi")])]

/-- A TweetWithVisibilityResults wrapper around innerPost. -/
def wrapPost : PVal :=
  .vObj [("__typename", .vStr "TweetWithVisibilityResults"),
         ("tweet", innerPost)]

/-- A post where both "text" candidate paths are present and disagree:
`note_tweet.note_tweet_results.result.text = "long"` and
`legacy.full_text = "short"`. -/
def conflictPost : PVal :=
  .vObj [("note_tweet", .vObj [("note_tweet_results",
            .vObj [("result", .vObj [("text", .vStr "long")])])]),
         ("legacy", .vObj [("full_text", .vStr "short")])]

/-- A post whose intermediate key maps to a scalar: `{"a": 5}`. -/
def scalarPost : PVal := .vObj [("a", .vInt 5)]

/- ================================================================
   Part 2: embedding of src/isaacutils/mail.py (EmailHandler)
   ================================================================ -/

/-- The fields of a logging.LogRecord that EmailHandler reads.  `exc_text`
is the formatted traceback when `record.exc_info` is present (mail.py line
207), `none` otherwise. -/
structure LogRecord where
  levelname : String
  msg : String
  created : Nat
  pathname : String
  lineno : Nat
  funcName : String
  exc_text : Option String
deriving DecidableEq

/-- The mutable and configuration state of an EmailHandler instance
(mail.py __init__, lines 80-96).  `subject_pfx` models the source field
`subject_prefix`; `batch_lock` is `threading.Lock`, a NON-reentrant mutex,
modelled as a held/free flag; `error_queue` is the pending deque. -/
structure Handler where
  from_addr : String
  to_addr : String
  subject_pfx : String
  pwdfile : String
  smtp_server : String
  smtp_port : Nat
  max_batch_size : Option Nat
  error_queue : List LogRecord
  batch_lock : Bool
deriving DecidableEq

/-- Result of running a handler method on the (single) emitting thread.
`done` is normal return.  `deadlock` means the thread blocked forever
acquiring `batch_lock` while already holding it (threading.Lock is not
reentrant); the payload is the state at the moment of blocking. -/
inductive Outcome (α : Type) where
  | done : α → Outcome α
  | deadlock : α → Outcome α
deriving DecidableEq

/-- mail.py `_send_batch(wait)`, lines 110-134, state semantics on the
calling thread.  Acquires `batch_lock` (deadlocking if the caller already
holds it); returns early if the queue is empty; otherwise copies the queue
into `records`, clears it, and starts a background thread running
`_send_email_batch(records)` — reported here as one dispatched batch.  The
optional `thread.join(timeout=30)` when `wait=True` affects timing only,
not state, so `wait` is unused here; see send_batch_trace for the
lock-holding behaviour. -/
def send_batch (h : Handler) (wait : Bool) :
    Outcome (Handler × List (List LogRecord)) :=
  if h.batch_lock then .deadlock (h, [])
  else if h.error_queue.isEmpty then .done (h, [])
  else .done ({ h with error_queue := [] }, [h.error_queue])

/-- mail.py `emit(record)`, lines 98-108.  Under `batch_lock`, appends the
record; if `max_batch_size` is truthy (not None and not 0) and the queue
has reached it, calls `_send_batch()` — which re-acquires the lock the
thread is still holding.  The surrounding `try/except` catches Exceptions
only; blocking on a lock is not an exception. -/
def emit (h : Handler) (r : LogRecord) :
    Outcome (Handler × List (List LogRecord)) :=
  if h.batch_lock then .deadlock (h, [])
  else
    let h1 := { h with batch_lock := true, error_queue := h.error_queue ++ [r] }
    let trigger :=
      match h1.max_batch_size with
      | some limit => limit ≠ 0 && h1.error_queue.length ≥ limit
      | none => false
    if trigger then
      match send_batch h1 false with
      | .done (h2, bs) => .done ({ h2 with batch_lock := false }, bs)
      | .deadlock st => .deadlock st
    else .done ({ h1 with batch_lock := false }, [])

/-- mail.py `flush()`, lines 238-241: `if self.error_queue:
self._send_batch(wait=True)`. -/
def flush (h : Handler) : Outcome (Handler × List (List LogRecord)) :=
  if h.error_queue.isEmpty then .done (h, [])
  else send_batch h true

/-- Emit a list of records in order, accumulating the dispatched batches.
A deadlock stops the run with the blocked state. -/
def emitAll (h : Handler) : List LogRecord → Outcome (Handler × List (List LogRecord))
  | [] => .done (h, [])
  | r :: rs =>
    match emit h r with
    | .done (h1, bs) =>
      match emitAll h1 rs with
      | .done (h2, bs2) => .done (h2, bs ++ bs2)
      | .deadlock (h2, bs2) => .deadlock (h2, bs ++ bs2)
    | .deadlock st => .deadlock st

/-- The pending queue visible in an outcome (for a deadlocked run, the
queue at the moment of blocking). -/
def queueAfter : Outcome (Handler × List (List LogRecord)) → List LogRecord
  | .done (h, _) => h.error_queue
  | .deadlock (h, _) => h.error_queue

/-- mail.py lines 139-142: single-record batches use
`"{prefix} {levelname}: {message}"`, larger (or empty) ones
`"{prefix} {n} errors occurred"`. -/
def batch_subject (h : Handler) (records : List LogRecord) : String :=
  match records with
  | [r] => h.subject_pfx ++ " " ++ r.levelname ++ ": " ++ r.msg
  | _ => h.subject_pfx ++ " " ++ toString records.length ++ " errors occurred"

/-- Python `text.replace(old, new)` for a single-character `old`: every
occurrence of the character is replaced; the scan does not revisit the
replacement text. -/
def pyReplace (s : List Char) (c : Char) (r : List Char) : List Char :=
  s.flatMap (fun x => if x = c then r else [x])

/-- mail.py `_escape_html(text)`, lines 228-236: five chained
`str.replace` calls, ampersand first. -/
def escape_html (text : List Char) : List Char :=
  pyReplace (pyReplace (pyReplace (pyReplace (pyReplace
    text '&' "&amp;".data) '<' "&lt;".data) '>' "&gt;".data)
    '"' "&quot;".data) '\x27' "&#39;".data

/-- Per-character view of escape_html: what one input character contributes
to the output. -/
def escChar (c : Char) : List Char :=
  if c = '&' then "&amp;".data
  else if c = '<' then "&lt;".data
  else if c = '>' then "&gt;".data
  else if c = '"' then "&quot;".data
  else if c = '\x27' then "&#39;".data
  else [c]

/-- HTML-unescape of the five entities produced by escape_html; the inverse
transformation used to state the round-trip property of the spec. -/
def unescape : List Char → List Char
  | [] => []
  | c :: rest =>
    if c = '&' then
      if rest.take 4 = "amp;".data then '&' :: unescape (rest.drop 4)
      else if rest.take 3 = "lt;".data then '<' :: unescape (rest.drop 3)
      else if rest.take 3 = "gt;".data then '>' :: unescape (rest.drop 3)
      else if rest.take 5 = "quot;".data then '"' :: unescape (rest.drop 5)
      else if rest.take 4 = "#39;".data then '\x27' :: unescape (rest.drop 4)
      else c :: unescape rest
    else c :: unescape rest
termination_by l => l.length
decreasing_by
  all_goals simp [List.length_drop]
  all_goals omega

/-- mail.py `_format_time`, lines 223-226: `datetime.fromtimestamp(ts)
.strftime(...)` — host-timezone-dependent; modelled as an abstract
rendering of the timestamp. -/
def format_time (timestamp : Nat) : String := toString timestamp

/-- The CSS/head boilerplate of `_format_html_batch`, mail.py lines 161-181. -/
def html_style_header : String :=
  "\n        <!DOCTYPE html>\n        <html>\n        <head>\n            <style>\n                body \x7b font-family: Arial, sans-serif; line-height: 1.6; color: #333; \x7d\n                .error-container \x7b margin: 20px 0; padding: 15px; border-left: 4px solid #d32f2f; background: #ffebee; \x7d\n                .critical-container \x7b margin: 20px 0; padding: 15px; border-left: 4px solid #b71c1c; background: #ffcdd2; \x7d\n                .error-header \x7b font-weight: bold; color: #d32f2f; margin-bottom: 10px; \x7d\n                .critical-header \x7b font-weight: bold; color: #b71c1c; margin-bottom: 10px; \x7d\n                .error-time \x7b color: #666; font-size: 0.9em; \x7d\n                .error-location \x7b color: #666; font-size: 0.9em; margin: 5px 0; \x7d\n                .error-message \x7b margin: 10px 0; padding: 10px; background: white; border-radius: 4px; \x7d\n                .stacktrace \x7b background: #263238; color: #aed581; padding: 15px; border-radius: 4px;\n                             overflow-x: auto; font-family: \x27Courier New\x27, monospace; font-size: 0.85em;\n                             white-space: pre-wrap; word-wrap: break-word; \x7d\n                .summary \x7b background: #e3f2fd; padding: 15px; border-radius: 4px; margin-bottom: 20px; \x7d\n            </style>\n        </head>\n        <body>\n        "

/-- Placeholder record for head/last of a list known non-empty at the call
site (mail.py indexes records[0] and records[-1] only when len > 1). -/
def blankRecord : LogRecord :=
  { levelname := "", msg := "", created := 0, pathname := "", lineno := 0,
    funcName := "", exc_text := none }

/-- The summary block of `_format_html_batch`, mail.py lines 183-189,
emitted when more than one record is batched. -/
def summary_block (records : List LogRecord) : String :=
  "\n            <div class=\"summary\">\n                <strong>Summary:</strong> "
    ++ toString records.length
    ++ " error(s) occurred<br>\n                <strong>Time Range:</strong> "
    ++ format_time (records.headD blankRecord).created
    ++ " - "
    ++ format_time (records.getLastD blankRecord).created
    ++ "\n            </div>\n            "

/-- The stack-trace fragment of `_format_html_batch`, mail.py lines
206-213: present only when the record carries exception info; the
traceback text goes through `_escape_html`. -/
def stacktrace_fragment (r : LogRecord) : String :=
  match r.exc_text with
  | none => ""
  | some t =>
    "\n                <div class=\"error-message\">\n                    <strong>Stack Trace:</strong>\n                    <div class=\"stacktrace\">"
      ++ String.mk (escape_html t.data)
      ++ "</div>\n                </div>\n                "

/-- One per-record block of `_format_html_batch`, mail.py lines 191-215.
`i` is the 1-based position from `enumerate(records, 1)`. -/
def record_block (multi : Bool) (i : Nat) (r : LogRecord) : String :=
  let container_class :=
    if r.levelname = "CRITICAL" then "critical-container" else "error-container"
  let header_class :=
    if r.levelname = "CRITICAL" then "critical-header" else "error-header"
  "\n            <div class=\"" ++ container_class
    ++ "\">\n                <div class=\"" ++ header_class
    ++ "\">\n                    "
    ++ (if multi then "Error " ++ toString i ++ " - " else "")
    ++ r.levelname ++ ": " ++ r.msg
    ++ "\n                </div>\n                <div class=\"error-time\">Time: "
    ++ format_time r.created
    ++ "</div>\n                <div class=\"error-location\">\n                    Location: "
    ++ r.pathname ++ ":" ++ toString r.lineno ++ " in " ++ r.funcName
    ++ "()\n                </div>\n            "
    ++ stacktrace_fragment r
    ++ "</div>"

/-- mail.py `_format_html_batch(records)`, lines 159-221. -/
def format_html_batch (records : List LogRecord) : String :=
  html_style_header
    ++ (if records.length > 1 then summary_block records else "")
    ++ String.join (records.enum.map
         (fun p => record_block (records.length > 1) (p.1 + 1) p.2))
    ++ "\n        </body>\n        </html>\n        "

/-- Output channels of the Python process.  `print(...)` with no `file=`
argument writes to standard output; reaching standard error would require
`print(..., file=sys.stderr)`. -/
inductive OutChannel where
  | stdout
  | stderr
deriving DecidableEq

/-- Observable outcome of the background thread `_send_email_batch`
(mail.py lines 136-157): either the email went out, or the exception was
caught and one diagnostic line was printed.  The adjacent source comment
reads "Log to stderr", but the call on line 157 is a plain `print(...)`
with no `file=` argument (and `sys` is not imported), so the line goes to
standard output; `failedReported` records the channel actually used.  The
function has no other exits: every Exception is caught, nothing is
re-raised, and the handler's queue is never touched. -/
inductive BgOutcome where
  | sent : String → String → BgOutcome
  | failedReported : OutChannel → String → BgOutcome
deriving DecidableEq

/-- mail.py `_send_email_batch(records)`, lines 136-157.  `send` stands for
the external `send_html_alert` call (SMTP transport), returning
`Except.error msg` when it raises.  The except-branch is
`print(f"EmailHandler failed to send: {e}", flush=True)` — a standard
output write. -/
def send_email_batch (h : Handler) (records : List LogRecord)
    (send : String → String → Except String Unit) : BgOutcome :=
  let subject := batch_subject h records
  let body := format_html_batch records
  match send subject body with
  | .ok _ => .sent subject body
  | .error e => .failedReported .stdout ("EmailHandler failed to send: " ++ e)

/-- `flush()` followed by running each dispatched background send with the
given transport: the end-to-end state of one flush cycle. -/
def flush_then_send (h : Handler) (send : String → String → Except String Unit) :
    Outcome (Handler × List BgOutcome) :=
  match flush h with
  | .done (h1, batches) =>
    .done (h1, batches.map (fun b => send_email_batch h b send))
  | .deadlock (h1, batches) =>
    .deadlock (h1, batches.map (fun b => send_email_batch h b send))

/- Lock-event traces for the concurrency claims. -/

/-- Events of the emitting / flushing thread and of the background sender,
used to reason about when `batch_lock` is held. -/
inductive LockEvent where
  | acquire
  | release
  | appendRecord
  | detachAndClear
  | startSendThread
  | joinSendThread
  | networkSend
deriving DecidableEq

/-- Event trace of `_send_batch(wait)` (mail.py lines 110-134) on the
calling thread: enter the `with self.batch_lock` block; if the queue is
empty, leave; otherwise detach-and-clear the queue, start the sender
thread, and — when `wait=True` — `thread.join(timeout=30)`, all before the
`with` block releases the lock. -/
def send_batch_trace (queueEmpty : Bool) (wait : Bool) : List LockEvent :=
  if queueEmpty then [.acquire, .release]
  else
    [.acquire, .detachAndClear, .startSendThread]
      ++ (if wait then [.joinSendThread] else [])
      ++ [.release]

/-- Event trace of the background thread `_send_email_batch` (mail.py lines
136-157): it performs the network send and never touches `batch_lock`. -/
def send_email_batch_trace : List LockEvent := [.networkSend]

/-- Event trace of `emit` (mail.py lines 98-108) when the batch-size
trigger does not fire: append under the lock. -/
def emit_trace : List LockEvent := [.acquire, .appendRecord, .release]

/-- `batch_lock` is held by the tracing thread when its i-th event runs:
strictly more acquires than releases among the first i events. -/
def HeldAt (tr : List LockEvent) (i : Nat) : Prop :=
  (tr.take i).count .acquire > (tr.take i).count .release

instance (tr : List LockEvent) (i : Nat) : Decidable (HeldAt tr i) := by
  unfold HeldAt
  infer_instance

/-- A concrete handler configuration used for witnesses: no batch-size
limit, empty queue, lock free. -/
def handler0 : Handler :=
  { from_addr := "alerts@example.com", to_addr := "ops@example.com",
    subject_pfx := "[ALERT]", pwdfile := "pw.txt",
    smtp_server := "smtp.example.com", smtp_port := 587,
    max_batch_size := none, error_queue := [], batch_lock := false }

/-- A concrete error record used for witnesses. -/
def record1 : LogRecord :=
  { levelname := "ERROR", msg := "boom", created := 1700000000,
    pathname := "job.py", lineno := 12, funcName := "run",
    exc_text := some "Traceback: <script>alert(1)</script>" }

/-- A second concrete error record used for witnesses. -/
def record2 : LogRecord :=
  { levelname := "CRITICAL", msg := "worse", created := 1700000100,
    pathname := "job.py", lineno := 40, funcName := "main",
    exc_text := none }

/- ================================================================
   Part 3: helper lemmas
   ================================================================ -/

theorem unwrap_obj_stay (es : List (String × PVal))
    (h : isTWVR (lookup es "__typename") = false) :
    unwrap (.vObj es) = .ok (.vObj es) := by
  rw [unwrap]
  simp [h]

theorem unwrap_obj_step (es : List (String × PVal))
    (h : isTWVR (lookup es "__typename") = true) :
    unwrap (.vObj es) = unwrap ((lookup es "tweet").getD (.vObj [])) := by
  rw [unwrap]
  simp [h]

theorem unwrap_str (s : String) : unwrap (.vStr s) = .error .attributeError := by
  rw [unwrap]

theorem unwrap_int (n : Int) : unwrap (.vInt n) = .error .attributeError := by
  rw [unwrap]

theorem pyReplace_append (a b : List Char) (c : Char) (r : List Char) :
    pyReplace (a ++ b) c r = pyReplace a c r ++ pyReplace b c r := by
  simp [pyReplace]

theorem escape_append (a b : List Char) :
    escape_html (a ++ b) = escape_html a ++ escape_html b := by
  simp [escape_html, pyReplace_append]

theorem escape_singleton (c : Char) : escape_html [c] = escChar c := by
  by_cases h1 : c = '&'
  · subst h1; decide
  by_cases h2 : c = '<'
  · subst h2; decide
  by_cases h3 : c = '>'
  · subst h3; decide
  by_cases h4 : c = '"'
  · subst h4; decide
  by_cases h5 : c = '\x27'
  · subst h5; decide
  simp [escape_html, pyReplace, escChar, h1, h2, h3, h4, h5]

theorem escape_eq_flatMap (s : List Char) : escape_html s = s.flatMap escChar := by
  induction s with
  | nil => rfl
  | cons x t ih =>
    rw [show (x :: t) = [x] ++ t from rfl, escape_append, escape_singleton, ih]
    rfl

theorem unescape_amp (l : List Char) :
    unescape ('&' :: 'a' :: 'm' :: 'p' :: ';' :: l) = '&' :: unescape l := by
  rw [unescape]
  simp [List.take_succ_cons, List.drop_succ_cons]

theorem unescape_lt (l : List Char) :
    unescape ('&' :: 'l' :: 't' :: ';' :: l) = '<' :: unescape l := by
  rw [unescape]
  simp [List.take_succ_cons, List.drop_succ_cons]

theorem unescape_gt (l : List Char) :
    unescape ('&' :: 'g' :: 't' :: ';' :: l) = '>' :: unescape l := by
  rw [unescape]
  simp [List.take_succ_cons, List.drop_succ_cons]

theorem unescape_quot (l : List Char) :
    unescape ('&' :: 'q' :: 'u' :: 'o' :: 't' :: ';' :: l) = '"' :: unescape l := by
  rw [unescape]
  simp [List.take_succ_cons, List.drop_succ_cons]

theorem unescape_apos (l : List Char) :
    unescape ('&' :: '#' :: '3' :: '9' :: ';' :: l) = '\x27' :: unescape l := by
  rw [unescape]
  simp [List.take_succ_cons, List.drop_succ_cons]

theorem unescape_other (c : Char) (l : List Char) (h : c ≠ '&') :
    unescape (c :: l) = c :: unescape l := by
  rw [unescape]
  simp [h]

theorem unescape_escape (s : List Char) : unescape (escape_html s) = s := by
  rw [escape_eq_flatMap]
  induction s with
  | nil => simp [unescape]
  | cons x t ih =>
    rw [List.flatMap_cons]
    by_cases h1 : x = '&'
    · subst h1
      rw [show escChar '&' = ['&', 'a', 'm', 'p', ';'] from rfl]
      simpa [unescape_amp] using ih
    by_cases h2 : x = '<'
    · subst h2
      rw [show escChar '<' = ['&', 'l', 't', ';'] from rfl]
      simpa [unescape_lt] using ih
    by_cases h3 : x = '>'
    · subst h3
      rw [show escChar '>' = ['&', 'g', 't', ';'] from rfl]
      simpa [unescape_gt] using ih
    by_cases h4 : x = '"'
    · subst h4
      rw [show escChar '"' = ['&', 'q', 'u', 'o', 't', ';'] from rfl]
      simpa [unescape_quot] using ih
    by_cases h5 : x = '\x27'
    · subst h5
      rw [show escChar '\x27' = ['&', '#', '3', '9', ';'] from rfl]
      simpa [unescape_apos] using ih
    rw [show escChar x = [x] from by simp [escChar, h1, h2, h3, h4, h5]]
    rw [List.singleton_append, unescape_other x _ h1, ih]

theorem escape_no_angle (s : List Char) :
    (escape_html s).all (fun c => !(c == '<' || c == '>')) = true := by
  rw [escape_eq_flatMap]
  induction s with
  | nil => rfl
  | cons x t ih =>
    rw [List.flatMap_cons, List.all_append, ih, Bool.and_true]
    by_cases h1 : x = '&'
    · subst h1; decide
    by_cases h2 : x = '<'
    · subst h2; decide
    by_cases h3 : x = '>'
    · subst h3; decide
    by_cases h4 : x = '"'
    · subst h4; decide
    by_cases h5 : x = '\x27'
    · subst h5; decide
    rw [show escChar x = [x] from by simp [escChar, h1, h2, h3, h4, h5]]
    simp [h2, h3]

theorem queueAfter_emit (h : Handler) (r : LogRecord) (hlock : h.batch_lock = false) :
    queueAfter (emit h r) = h.error_queue ++ [r] := by
  simp only [emit, hlock, Bool.false_eq_true, if_false]
  split
  · simp [send_batch, queueAfter]
  · simp [queueAfter]

/- ================================================================
   Part 4: the claims
   ================================================================ -/

/-- C1: requesting "text" when both candidate paths are present with
different non-container values raises AssertionError — the code asserts
for "text" exactly as for every other attribute, contrary to the claimed
(and docstring-promised) special allowance for "text". -/
theorem conflict_assert_on_text :
    get_post_attr conflictPost "text" textPaths = (.error .assertionError, false) := by
  have hu : unwrap conflictPost = .ok conflictPost := unwrap_obj_stay _ (by decide)
  simp only [get_post_attr, hu]
  rfl

/-- C2: with max_batch_size unset (None), emitting any sequence of records
appends them in order and dispatches zero sends; with max_batch_size = 1
on a fresh handler, the very first emit re-acquires the non-reentrant
batch_lock inside _send_batch and deadlocks — it never completes, never
dispatches a batch. -/
theorem emit_batch_dispatch :
    (∀ (h : Handler) (rs : List LogRecord),
        h.max_batch_size = none → h.batch_lock = false →
        emitAll h rs = .done ({ h with error_queue := h.error_queue ++ rs }, []))
    ∧ (∀ (h : Handler) (r : LogRecord),
        h.max_batch_size = some 1 → h.batch_lock = false → h.error_queue = [] →
        emit h r = .deadlock ({ h with error_queue := [r], batch_lock := true }, [])) := by
  constructor
  · intro h rs
    induction rs generalizing h with
    | nil =>
      intro hmax hlock
      simp [emitAll]
    | cons r rs ih =>
      intro hmax hlock
      have he : emit h r = .done ({ h with error_queue := h.error_queue ++ [r] }, []) := by
        simp [emit, hlock, hmax]
      have ih2 := ih { h with error_queue := h.error_queue ++ [r] } hmax hlock
      simp [emitAll, he, ih2]
  · intro h r hmax hlock hq
    simp [emit, send_batch, hlock, hmax, hq]

/-- C2 witness: two emits with no limit leave both records queued and send
nothing; one emit with limit 1 deadlocks with the record queued. -/
theorem emit_batch_dispatch_witness :
    emitAll handler0 [record1, record2]
        = .done ({ handler0 with error_queue := [record1, record2] }, [])
    ∧ emit { handler0 with max_batch_size := some 1 } record1
        = .deadlock
            ({ handler0 with
                max_batch_size := some 1
                error_queue := [record1]
                batch_lock := true }, []) :=
  ⟨emit_batch_dispatch.1 handler0 [record1, record2] rfl rfl,
   emit_batch_dispatch.2 { handler0 with max_batch_size := some 1 } record1 rfl rfl rfl⟩

/-- C3 counterexample: in the trace of _send_batch(wait=True) on a
non-empty queue — the shutdown/flush path — the join on the in-flight
sender thread (index 3) runs while batch_lock is held, refuting the claim
that the lock is never held while waiting on the send. -/
theorem lock_held_during_join_counterexample :
    (send_batch_trace false true)[3]? = some LockEvent.joinSendThread
    ∧ HeldAt (send_batch_trace false true) 3 := by
  decide

/-- C3 amended: a normal (non-waiting) batch dispatch never joins the
sender under the lock, and the background thread performing the network
send never touches the lock; but on the flush/close path (wait=True) the
lock IS held across the join on the in-flight send (so a concurrent emit
can be blocked for up to the 30-second join timeout); under the lock, the
non-waiting dispatch and emit traces contain no join and no network I/O. -/
theorem lock_scope_amended :
    (LockEvent.joinSendThread ∉ send_batch_trace true false
      ∧ LockEvent.joinSendThread ∉ send_batch_trace false false)
    ∧ LockEvent.acquire ∉ send_email_batch_trace
    ∧ ((send_batch_trace false true)[3]? = some LockEvent.joinSendThread
        ∧ HeldAt (send_batch_trace false true) 3)
    ∧ (∀ i, i < (send_batch_trace false false).length →
        HeldAt (send_batch_trace false false) i →
        (send_batch_trace false false)[i]? ≠ some LockEvent.joinSendThread
          ∧ (send_batch_trace false false)[i]? ≠ some LockEvent.networkSend)
    ∧ (∀ i, i < emit_trace.length → HeldAt emit_trace i →
        emit_trace[i]? ≠ some LockEvent.joinSendThread
          ∧ emit_trace[i]? ≠ some LockEvent.networkSend) := by
  decide

/-- C3 amended witness: the event at index 1 of the non-waiting dispatch
trace runs under the lock and is neither a join nor a network send. -/
theorem lock_scope_amended_witness :
    (send_batch_trace false false)[1]? ≠ some LockEvent.joinSendThread
    ∧ (send_batch_trace false false)[1]? ≠ some LockEvent.networkSend :=
  lock_scope_amended.2.2.2.1 1 (by decide) (by decide)

/-- C4: after flush the pending queue is empty; the single dispatched batch
is exactly the queue detached at flush time (each detached record once, in
order, and nothing else); and a subsequent emit accumulates afresh — the
queue then holds exactly the new record, which is in no already-dispatched
batch. -/
theorem flush_clears_queue :
    ∀ h : Handler, h.batch_lock = false →
      flush h = .done ({ h with error_queue := [] },
          if h.error_queue.isEmpty then [] else [h.error_queue])
      ∧ ∀ r : LogRecord, queueAfter (emit { h with error_queue := [] } r) = [r] := by
  rintro ⟨fa, ta, sp, pf, ss, pt, mb, q, lk⟩ hlock
  dsimp only at hlock
  subst hlock
  constructor
  · by_cases he : q.isEmpty
    · have hq : q = [] := by simpa using he
      subst hq
      simp [flush]
    · simp [flush, he, send_batch]
  · intro r
    rw [queueAfter_emit _ r rfl]
    rfl

/-- C4 witness: flushing a one-record queue dispatches exactly that record
and empties the queue; emitting afterwards leaves exactly the new record
queued. -/
theorem flush_clears_queue_witness :
    flush { handler0 with error_queue := [record1] }
        = .done ({ handler0 with error_queue := [] }, [[record1]])
    ∧ queueAfter (emit { handler0 with error_queue := [] } record2) = [record2] :=
  ⟨(flush_clears_queue { handler0 with error_queue := [record1] } rfl).1,
   (flush_clears_queue { handler0 with error_queue := [record1] } rfl).2 record2⟩

/-- C5: escape_html escapes exactly the five HTML-special characters
(ampersand first, so the escaping is unambiguous), the escaping is
inverted by unescape on every input (hence injective), and the escaped
text — which is what the stacktrace block of the rendered email embeds,
see stacktrace_fragment — contains no angle bracket at all. -/
theorem escape_html_claim :
    (∀ s : List Char, unescape (escape_html s) = s)
    ∧ (∀ s : List Char, (escape_html s).all (fun c => !(c == '<' || c == '>')) = true)
    ∧ (∀ c : Char, escape_html [c] = escChar c) :=
  ⟨unescape_escape, escape_no_angle, escape_singleton⟩

/-- C6: a TweetWithVisibilityResults wrapper is unwrapped before resolving
any attribute other than "__typename" (for any table, one wrapper level
peels to the inner tweet, and by iteration any number of levels);
concretely, requesting "text" on the wrapper around legacy.full_text="hi"
returns "hi", and on an unwrapped post with only legacy.full_text="hello"
present the second candidate path yields "hello". -/
theorem unwrap_before_resolution :
    (∀ (es : List (String × PVal)) (inner : PVal) (attr : String)
        (T : List (String × List String)),
        attr ≠ "__typename" →
        lookup es "__typename" = some (.vStr "TweetWithVisibilityResults") →
        lookup es "tweet" = some inner →
        get_post_attr (.vObj es) attr T = get_post_attr inner attr T)
    ∧ get_post_attr wrapPost "text" textPaths = (.ok (some (.vStr "hi")), false)
    ∧ get_post_attr helloPost "text" textPaths = (.ok (some (.vStr "hello")), false) := by
  refine ⟨?_, ?_, ?_⟩
  · intro es inner attr T ha ht hw
    have hu : unwrap (.vObj es) = unwrap inner := by
      rw [unwrap_obj_step es (by simp [isTWVR, ht]), hw]
      rfl
    simp only [get_post_attr, if_neg ha, hu]
  · have hu : unwrap wrapPost = .ok innerPost := by
      rw [show wrapPost = PVal.vObj [("__typename", PVal.vStr "TweetWithVisibilityResults"),
            ("tweet", innerPost)] from rfl]
      rw [unwrap_obj_step _ (by decide)]
      rw [show (lookup [("__typename", PVal.vStr "TweetWithVisibilityResults"),
            ("tweet", innerPost)] "tweet").getD (PVal.vObj []) = innerPost from rfl]
      exact unwrap_obj_stay _ (by decide)
    simp only [get_post_attr, hu]
    rfl
  · have hu : unwrap helloPost = .ok helloPost := unwrap_obj_stay _ (by decide)
    simp only [get_post_attr, hu]
    rfl

/-- C6 witness: the wrapper case of the general unwrap property at the
concrete wrapped post, table, and attribute "text". -/
theorem unwrap_before_resolution_witness :
    get_post_attr (PVal.vObj [("__typename", PVal.vStr "TweetWithVisibilityResults"),
        ("tweet", innerPost)]) "text" textPaths
      = get_post_attr innerPost "text" textPaths :=
  unwrap_before_resolution.1 _ innerPost "text" textPaths (by decide) rfl rfl

/-- C7 counterexample: (a) requesting "__typename" when it is absent from
the (empty) path table returns the post's discriminator value — not None —
and logs no warning; (b) requesting an absent attribute on a
TweetWithVisibilityResults whose "tweet" field is a string raises
AttributeError during unwrapping, before the table is consulted. -/
theorem unknown_attr_counterexample :
    get_post_attr (PVal.vObj [("__typename", PVal.vStr "Tweet")]) "__typename" []
        = (.ok (some (PVal.vStr "Tweet")), false)
    ∧ get_post_attr (PVal.vObj [("__typename", PVal.vStr "TweetWithVisibilityResults"),
          ("tweet", PVal.vStr "oops")]) "foo" []
        = (.error .attributeError, false) := by
  constructor
  · rfl
  · have hu : unwrap (PVal.vObj [("__typename", PVal.vStr "TweetWithVisibilityResults"),
        ("tweet", PVal.vStr "oops")]) = .error .attributeError := by
      rw [unwrap_obj_step _ (by decide)]
      rw [show (lookup [("__typename", PVal.vStr "TweetWithVisibilityResults"),
            ("tweet", PVal.vStr "oops")] "tweet").getD (PVal.vObj []) = PVal.vStr "oops" from rfl]
      exact unwrap_str _
    simp only [get_post_attr, hu]
    rfl

/-- C7 amended: requesting an attribute other than "__typename" that is
absent from the path table logs a warning and returns None without
raising, provided unwrapping the post succeeds; "__typename" itself
bypasses the table, and a malformed wrapper raises AttributeError before
the table check. -/
theorem unknown_attr_amended :
    ∀ (post : PVal) (attr : String) (T : List (String × List String)),
      attr ≠ "__typename" → lookup T attr = none →
      (∃ u, unwrap post = Except.ok u) →
      get_post_attr post attr T = (.ok none, true) := by
  intro post attr T ha hT hu
  obtain ⟨u, hu⟩ := hu
  simp only [get_post_attr, if_neg ha, hu, hT]

/-- C7 amended witness: an unknown attribute on a plain post with an empty
table resolves to None with the warning flag set. -/
theorem unknown_attr_amended_witness :
    get_post_attr helloPost "missing" [] = (.ok none, true) :=
  unknown_attr_amended helloPost "missing" [] (by decide) rfl
    ⟨helloPost, unwrap_obj_stay _ (by decide)⟩

/-- C8 counterexample: on a concrete failing transport, the caught
exception is reported by a plain print on standard output — not on
standard error as the claim states: mail.py line 157 passes no `file=`
argument to print. -/
theorem background_send_stdout_counterexample :
    send_email_batch handler0 [record1] (fun _ _ => .error "SMTPAuthenticationError")
      = .failedReported .stdout
          ("EmailHandler failed to send: " ++ "SMTPAuthenticationError")
    ∧ OutChannel.stdout ≠ OutChannel.stderr :=
  ⟨rfl, by decide⟩

/-- C8 amended: when the transport raises inside the detached send path,
the exception is caught and turned into a single diagnostic line printed
to standard output — a last-resort channel outside the logging system,
though not the standard error the source comment announces; the flush
cycle still returns normally (nothing re-raised) and the queue stays
empty — the batch is dropped, never re-queued. -/
theorem background_failure_claim :
    ∀ (h : Handler) (e : String), h.batch_lock = false → h.error_queue ≠ [] →
      flush_then_send h (fun _ _ => .error e)
        = .done ({ h with error_queue := [] },
            [.failedReported .stdout ("EmailHandler failed to send: " ++ e)]) := by
  intro h e hlock hq
  have he : h.error_queue.isEmpty = false := by simpa using hq
  simp [flush_then_send, flush, send_batch, send_email_batch, he, hlock]

/-- C8 amended witness: a failing transport on a one-record flush yields
exactly the stdout report, an empty queue, and a normal return. -/
theorem background_failure_witness :
    flush_then_send { handler0 with error_queue := [record1] }
        (fun _ _ => .error "SMTPAuthenticationError")
      = .done ({ handler0 with error_queue := [] },
          [.failedReported .stdout
            ("EmailHandler failed to send: " ++ "SMTPAuthenticationError")]) :=
  background_failure_claim { handler0 with error_queue := [record1] }
    "SMTPAuthenticationError" rfl (by simp)

/-- C9: on the post {"a": 5} with candidate path "a.b", the key-by-key
walk calls .get on the scalar 5 and raises AttributeError — present scalar
intermediates are not covered by the empty-container default. -/
theorem scalar_step_raises :
    get_post_attr scalarPost "x" [("x", ["a.b"])] = (.error .attributeError, false) := by
  have hu : unwrap scalarPost = .ok scalarPost := unwrap_obj_stay _ (by decide)
  simp only [get_post_attr, hu]
  rfl

/-- C10: requesting "__typename" returns the outermost object's own
discriminator directly, for every path table (so the table is never
consulted and no unknown-attribute warning is logged), and on a
TweetWithVisibilityResults wrapper it returns the wrapper's discriminator,
not the inner tweet's. -/
theorem typename_direct :
    (∀ (es : List (String × PVal)) (T : List (String × List String)),
        get_post_attr (.vObj es) "__typename" T = (.ok (lookup es "__typename"), false))
    ∧ get_post_attr wrapPost "__typename" []
        = (.ok (some (.vStr "TweetWithVisibilityResults")), false) := by
  constructor
  · intro es T
    simp [get_post_attr]
  · rfl
